import Mathlib

/-!
Verification of `stress_preprocessor/utils/signal_processing_utils.py`.

The module is orchestration glue over pandas and NeuroKit2.  We embed the
three functions of the file — `extract_neuro_features`, `get_sampling_rate`
and `resample_dataframe` — shallowly:

* a pandas `DataFrame` becomes a row index (with its optional name) plus an
  ordered list of named columns, each a list of `Cell`s;
* a cell is a string, a rational number, `NaN`, or `inf` (rationals stand in
  for the numeric dtypes; `inf` records the float result of dividing by an
  exactly-zero mean interval);
* Python exceptions become an `Except PyError` result, with the distinct
  exception classes (`ValueError`, `KeyError`, `IndexError`) kept apart so
  that evaluation order of fallible operations is observable;
* the NeuroKit2 processors are opaque collaborators, passed in as a
  `NeuroKit` record of total functions from a signal column and a sampling
  rate to an output frame;
* purely side-effecting statements of the source (plot rendering, directory
  creation, figure saving, warning logging) have no bearing on the returned
  values or raised exceptions modelled here and are not embedded.
-/

set_option linter.unusedVariables false

/-- A single cell of a dataframe: a string, a (rational) number, the float
`NaN`, or the float `+inf` (produced by `1 / 0.0`). -/
inductive Cell where
  | str (s : String)
  | num (q : ℚ)
  | nan
  | inf
deriving DecidableEq, Repr

/-- The Python exceptions the embedded functions can raise. -/
inductive PyError where
  | valueError (msg : String)
  | keyError (key : Cell)
  | indexError
deriving DecidableEq, Repr

/-- A pandas DataFrame: a row index (values plus optional name, `none` for
the default unnamed RangeIndex) and an ordered association list of columns. -/
structure DataFrame where
  indexName : Option String
  index : List Cell
  cols : List (String × List Cell)
deriving DecidableEq, Repr

/-- Embeds `df.columns`: the list of column labels. -/
def DataFrame.columns (df : DataFrame) : List String :=
  df.cols.map Prod.fst

/-- The values of column `c` (defaults to `[]` when absent; total accessor
used only where presence has been established). -/
def DataFrame.col (df : DataFrame) (c : String) : List Cell :=
  (df.cols.lookup c).getD []

/-- Embeds `df[c]`: column access, raising `KeyError(c)` when the label is absent. -/
def getCol (df : DataFrame) (c : String) : Except PyError (List Cell) :=
  match df.cols.lookup c with
  | some v => .ok v
  | none => .error (.keyError (.str c))

/-- Embeds `series.iloc[0]`: the first element, raising `IndexError` when empty. -/
def iloc0 (xs : List Cell) : Except PyError Cell :=
  match xs with
  | [] => .error .indexError
  | x :: _ => .ok x

/-- Embeds `modes[key]`: Python dict lookup, raising `KeyError(key)` when absent.
The dict is embedded as an association list. -/
def dictGet (modes : List (Cell × String)) (key : Cell) : Except PyError String :=
  match modes.lookup key with
  | some v => .ok v
  | none => .error (.keyError key)

/-- The NeuroKit2 collaborators `nk.ecg_process` / `nk.eda_process`:
opaque total functions from the signal column and the (integer) sampling
rate to the processed feature frame.  The auxiliary `info` return value is
used by the source only for plotting and is not modelled. -/
structure NeuroKit where
  ecg : List Cell → ℤ → DataFrame
  eda : List Cell → ℤ → DataFrame

/-- Modelled from the spec: `prefix_columns` is imported from
`stress_preprocessor.utils.preprocessing_utils`, which is not among the
sources.  Per the spec it renames every output feature column by prepending
the given prefix. -/
def prefix_columns (df : DataFrame) (p : String) : DataFrame :=
  { df with cols := df.cols.map (fun c => (p ++ c.1, c.2)) }

/-- Embeds the `df.loc[:, names]` step: select the listed columns in order, raising
`KeyError` at the first absent label. -/
def selectCols (df : DataFrame) : List String → Except PyError (List (String × List Cell))
  | [] => .ok []
  | n :: ns =>
    match df.cols.lookup n with
    | some v => (selectCols df ns).map (fun r => (n, v) :: r)
    | none => .error (.keyError (.str n))

/-- Embeds `df.loc[:, names]` as a frame. -/
def locCols (df : DataFrame) (names : List String) : Except PyError DataFrame :=
  (selectCols df names).map (fun cs => { df with cols := cs })

/-- Embeds `pd.concat([a, b], axis=1)`: column-wise concatenation, modelled for the
aligned case in which both frames carry the same row index, where pandas
places the frames side by side.  (The spec itself notes the source assumes
the processor output's index aligns with the recording's.) -/
def concatCols (a b : DataFrame) : DataFrame :=
  ⟨a.indexName, a.index, a.cols ++ b.cols⟩

/-- Dispatch on `signal_type`: the `if signal_type == 'ECG' … elif … else
raise ValueError` ladder of the source. -/
def nkDispatch (nk : NeuroKit) (signal_type : String) (signal : List Cell)
    (sr_hz : ℤ) : Except PyError DataFrame :=
  if signal_type = "ECG" then .ok (nk.ecg signal sr_hz)
  else if signal_type = "EDA" then .ok (nk.eda signal sr_hz)
  else .error (.valueError "Invalid value for signal_type. Must be 'ECG' or 'EDA'.")

/-- One iteration of the per-recording loop of `extract_neuro_features`,
in source order: read the first scenario value, translate the first mode
code through the dict, read the signal column, dispatch on `signal_type`,
prefix the processor's columns, select the four context columns, and
concatenate.  Plotting and warning logging are side effects only. -/
def processOne (nk : NeuroKit) (sr_hz : ℤ)
    (signal_col target_col time_col scenario_col mode_col : String)
    (modes : List (Cell × String)) (signal_type : String)
    (df : DataFrame) : Except PyError DataFrame := do
  let scenSeries ← getCol df scenario_col
  let _scenario_id ← iloc0 scenSeries
  let modeSeries ← getCol df mode_col
  let modeKey ← iloc0 modeSeries
  let _mode ← dictGet modes modeKey
  let signal ← getCol df signal_col
  let neuro ← nkDispatch nk signal_type signal sr_hz
  let neuroPrefixed := prefix_columns neuro (signal_type ++ "_")
  let df_raw_part ← locCols df [time_col, scenario_col, mode_col, target_col]
  .ok (concatCols df_raw_part neuroPrefixed)

/-- The `for idx, df in enumerate(dfs)` loop body with its accumulating
`neuro_feats_dfs.append`; an exception aborts the whole call. -/
def extractLoop (nk : NeuroKit) (sr_hz : ℤ)
    (signal_col target_col time_col scenario_col mode_col : String)
    (modes : List (Cell × String)) (signal_type : String) :
    List DataFrame → Except PyError (List DataFrame)
  | [] => .ok []
  | df :: rest => do
    let t ← processOne nk sr_hz signal_col target_col time_col scenario_col
      mode_col modes signal_type df
    let ts ← extractLoop nk sr_hz signal_col target_col time_col scenario_col
      mode_col modes signal_type rest
    .ok (t :: ts)

/-- Embeds `extract_neuro_features`: a single frame (`Sum.inl`) is first wrapped
into a one-element list (the `isinstance(dfs, list)` normalization), then
the loop runs.  `participant`, `graph_path` and `offline` only steer the
plot side effects and do not influence the embedded result. -/
def extract_neuro_features (nk : NeuroKit) (dfs : DataFrame ⊕ List DataFrame)
    (sr_hz : ℤ) (signal_col target_col time_col participant scenario_col mode_col : String)
    (modes : List (Cell × String)) (graph_path : String) (signal_type : String)
    (offline : Bool) : Except PyError (List DataFrame) :=
  let dfsL : List DataFrame :=
    match dfs with
    | .inl d => [d]
    | .inr l => l
  extractLoop nk sr_hz signal_col target_col time_col scenario_col mode_col
    modes signal_type dfsL

/-- Numeric view of a cell (`NaN`-skipping aggregations see only these).
`inf` is produced only as a final division result and never fed back into
an aggregation in the modelled functions. -/
def Cell.toQ : Cell → Option ℚ
  | .num q => some q
  | _ => none

/-- Cell subtraction, as performed element-wise by `Series.diff()` on a
numeric column: number minus number, `NaN` propagating otherwise.  (The
modelled domain is numeric timestamp columns; pandas would reject string
columns outright.) -/
def Cell.sub : Cell → Cell → Cell
  | .num a, .num b => .num (a - b)
  | _, _ => .nan

/-- Embeds `series.diff()`: first element `NaN`, then consecutive differences
(`out[i] = x[i] - x[i-1]`); empty in, empty out. -/
def seriesDiff : List Cell → List Cell
  | [] => []
  | x :: xs => .nan :: List.zipWith Cell.sub xs (x :: xs)

/-- Embeds `series.mean()`: the NaN-skipping mean; `NaN` when no numeric value
remains (in particular on an empty or all-NaN series). -/
def seriesMean (xs : List Cell) : Cell :=
  let nums := xs.filterMap Cell.toQ
  if nums.isEmpty then .nan else .num (nums.sum / (nums.length : ℚ))

/-- Embeds `1 / time_interval` on the float mean: reciprocal of a number, `+inf`
when the mean interval is exactly zero (float `1 / 0.0`), `NaN` on `NaN`. -/
def Cell.recip : Cell → Cell
  | .num q => if q = 0 then .inf else .num (1 / q)
  | .inf => .num 0
  | _ => .nan

/-- The estimated rate of one frame: `1 / df[time_col].diff().mean()`. -/
def rateOf (time_col : String) (df : DataFrame) : Cell :=
  Cell.recip (seriesMean (seriesDiff (df.col time_col)))

/-- Embeds `get_sampling_rate`: per frame, check the timestamp column is present
(else `ValueError` naming it, aborting the whole call), then append
`1 / mean(diff(timestamps))`. -/
def get_sampling_rate : List DataFrame → String → Except PyError (List Cell)
  | [], _ => .ok []
  | df :: rest, time_col =>
    if time_col ∈ df.columns then
      match get_sampling_rate rest time_col with
      | .ok rs => .ok (rateOf time_col df :: rs)
      | .error e => .error e
    else
      .error (.valueError ("Timestamp column '" ++ time_col ++ "' not found in dataframe."))

/-- Embeds `df.set_index(timestamp_col, inplace=True)`: move the named column into
the index position (the index takes the column's name and values, and the
column leaves the column list); `KeyError` when the column is absent.
Duplicate labels equal to `timestamp_col` do not occur in the modelled
domain (pandas would reject them). -/
def set_index (df : DataFrame) (timestamp_col : String) : Except PyError DataFrame :=
  match df.cols.lookup timestamp_col with
  | some v => .ok ⟨some timestamp_col, v, df.cols.filter (fun c => c.1 ≠ timestamp_col)⟩
  | none => .error (.keyError (.str timestamp_col))

/-- The two aggregation rules the source's `.agg({...})` dict uses. -/
inductive AggFun where
  | first
  | mean
deriving DecidableEq, Repr

/-- groupby/resample `'first'`: the first non-NaN value of the group,
`NaN` when none exists. -/
def aggFirst (xs : List Cell) : Cell :=
  match xs.find? (fun c => !(c == Cell.nan)) with
  | some c => c
  | none => .nan

/-- Apply one aggregation rule to the cells of one bin. -/
def applyAgg : AggFun → List Cell → Cell
  | .first, xs => aggFirst xs
  | .mean, xs => seriesMean xs

/-- The resampling bin an index value falls into, for bins of width
`freq` anchored at 0 (timestamps abstracted to rationals, the pandas
frequency string to a positive rational bin width). -/
def binOf (freq : ℚ) (t : ℚ) : ℤ := ⌊t / freq⌋

/-- The values of a column that fall into bin `k` (rows whose index entry
is not a valid timestamp are dropped, as resample drops `NaT` rows). -/
def cellsInBin (index : List Cell) (vals : List Cell) (freq : ℚ) (k : ℤ) : List Cell :=
  (index.zip vals).filterMap (fun p =>
    match Cell.toQ p.1 with
    | some t => if binOf freq t = k then some p.2 else none
    | none => none)

/-- The numeric entries of an index. -/
def numericIndex (index : List Cell) : List ℚ := index.filterMap Cell.toQ

/-- The bins `resample` materialises: every bin from the first to the last
occupied one (empty bins included, as pandas emits them); no bins when the
index holds no timestamp. -/
def binRange (index : List Cell) (freq : ℚ) : List ℤ :=
  match numericIndex index with
  | [] => []
  | t :: ts =>
    let ks := (t :: ts).map (binOf freq)
    let kmin := ks.foldl min (binOf freq t)
    let kmax := ks.foldl max (binOf freq t)
    (List.range (kmax - kmin + 1).toNat).map (fun i => kmin + i)

/-- Embeds `df.resample(target_freq).agg(spec)`: bin the rows by index, apply the
per-column rule of `spec` to each listed column in each bin (`KeyError` at
the first listed column absent from the frame), and index the result by the
left bin edges, keeping the index name. -/
def pdResampleAgg (df : DataFrame) (freq : ℚ) (spec : List (String × AggFun)) :
    Except PyError DataFrame :=
  match spec.find? (fun s => !(df.cols.lookup s.1).isSome) with
  | some s => .error (.keyError (.str s.1))
  | none =>
    let ks := binRange df.index freq
    .ok ⟨df.indexName, ks.map (fun k => Cell.num (k * freq)),
      spec.map (fun s => (s.1, ks.map (fun k => applyAgg s.2 (cellsInBin df.index (df.col s.1) freq k))))⟩

/-- Embeds `df.reset_index(inplace=True)`: the index becomes the leading column,
named after the index (or `"index"` when the index is unnamed), and the new
index is a fresh unnamed RangeIndex. -/
def reset_index (df : DataFrame) : DataFrame :=
  ⟨none, (List.range df.index.length).map (fun i => Cell.num i),
    (df.indexName.getD "index", df.index) :: df.cols⟩

/-- Embeds `df.rename(columns={'index': 'timestamp_col'}, inplace=True)`: renames
any column literally labelled `"index"` to the literal label
`"timestamp_col"` (a leftover of the source; a no-op unless such a column
exists). -/
def renameIndexCol (df : DataFrame) : DataFrame :=
  { df with cols := df.cols.map (fun c => (if c.1 = "index" then "timestamp_col" else c.1, c.2)) }

/-- Embeds `resample_dataframe` in state-passing form: the first component is the
caller-visible state of the argument after the call (the source mutates the
frame via `set_index(..., inplace=True)` before resampling), the second the
returned frame or the raised exception. -/
def resample_dataframe (df : DataFrame)
    (timestamp_col value_col group_col participant_col : String)
    (target_freq : ℚ) : DataFrame × Except PyError DataFrame :=
  match set_index df timestamp_col with
  | .error e => (df, .error e)
  | .ok df2 =>
    match pdResampleAgg df2 target_freq
        [(participant_col, .first), (group_col, .first), (value_col, .mean)] with
    | .error e => (df2, .error e)
    | .ok r => (df2, .ok (renameIndexCol (reset_index r)))

/-- The processor a valid `signal_type` dispatches to. -/
def nkRun (nk : NeuroKit) (signal_type : String) (signal : List Cell) (sr_hz : ℤ) : DataFrame :=
  if signal_type = "ECG" then nk.ecg signal sr_hz else nk.eda signal sr_hz

/-- The value one loop iteration appends on the success path: the four
context columns of the recording (left) concatenated with the processor's
frame, every column prefixed by the signal type (right). -/
def featureTable (nk : NeuroKit) (sr_hz : ℤ)
    (signal_col target_col time_col scenario_col mode_col signal_type : String)
    (df : DataFrame) : DataFrame :=
  concatCols
    { df with cols := [time_col, scenario_col, mode_col, target_col].map (fun n => (n, df.col n)) }
    (prefix_columns (nkRun nk signal_type (df.col signal_col) sr_hz) (signal_type ++ "_"))

/-- A recording on which one loop iteration cannot raise: the scenario and
mode columns are present and non-empty, the first mode code is in the mode
map, and the signal, time and target columns are present. -/
def RecOk (signal_col target_col time_col scenario_col mode_col : String)
    (modes : List (Cell × String)) (df : DataFrame) : Prop :=
  (∃ s ss, df.cols.lookup scenario_col = some (s :: ss)) ∧
  (∃ m ms mn, df.cols.lookup mode_col = some (m :: ms) ∧ modes.lookup m = some mn) ∧
  (∃ v, df.cols.lookup signal_col = some v) ∧
  (∃ v, df.cols.lookup time_col = some v) ∧
  (∃ v, df.cols.lookup target_col = some v)

theorem selectCols_ok (df : DataFrame) (names : List String)
    (h : ∀ n ∈ names, (df.cols.lookup n).isSome) :
    selectCols df names = .ok (names.map (fun n => (n, df.col n))) := by
  induction names with
  | nil => rfl
  | cons n ns ih =>
    rcases Option.isSome_iff_exists.mp (h n (by simp)) with ⟨v, hv⟩
    simp [selectCols, hv, ih (fun m hm => h m (by simp [hm])), DataFrame.col, Except.map]

theorem processOne_ok (nk : NeuroKit) (sr_hz : ℤ)
    (signal_col target_col time_col scenario_col mode_col : String)
    (modes : List (Cell × String)) (signal_type : String) (df : DataFrame)
    (hok : RecOk signal_col target_col time_col scenario_col mode_col modes df)
    (hty : signal_type = "ECG" ∨ signal_type = "EDA") :
    processOne nk sr_hz signal_col target_col time_col scenario_col mode_col modes signal_type df
      = .ok (featureTable nk sr_hz signal_col target_col time_col scenario_col mode_col signal_type df) := by
  obtain ⟨⟨s, ss, hs⟩, ⟨m, ms, mn, hm, hmn⟩, ⟨sv, hsv⟩, ⟨tv, htv⟩, ⟨gv, hgv⟩⟩ := hok
  have hloc : locCols df [time_col, scenario_col, mode_col, target_col]
      = .ok { df with cols := [time_col, scenario_col, mode_col, target_col].map (fun n => (n, df.col n)) } := by
    rw [locCols, selectCols_ok]
    · rfl
    · intro n hn
      simp only [List.mem_cons, List.not_mem_nil, or_false] at hn
      rcases hn with rfl | rfl | rfl | rfl <;> simp [hs, hm, hsv, htv, hgv]
  rcases hty with h | h <;>
    simp [processOne, getCol, iloc0, dictGet, nkDispatch, hs, hm, hmn, hsv, hloc, h,
      featureTable, nkRun, DataFrame.col, Bind.bind, Except.bind]

theorem extractLoop_ok (nk : NeuroKit) (sr_hz : ℤ)
    (signal_col target_col time_col scenario_col mode_col : String)
    (modes : List (Cell × String)) (signal_type : String) (dfs : List DataFrame)
    (hok : ∀ df ∈ dfs, RecOk signal_col target_col time_col scenario_col mode_col modes df)
    (hty : signal_type = "ECG" ∨ signal_type = "EDA") :
    extractLoop nk sr_hz signal_col target_col time_col scenario_col mode_col modes signal_type dfs
      = .ok (dfs.map (featureTable nk sr_hz signal_col target_col time_col scenario_col mode_col signal_type)) := by
  induction dfs with
  | nil => rfl
  | cons d rest ih =>
    have h1 := processOne_ok nk sr_hz signal_col target_col time_col scenario_col mode_col
      modes signal_type d (hok d (by simp)) hty
    simp [extractLoop, h1, ih (fun x hx => hok x (by simp [hx])), Bind.bind, Except.bind]

/-! ### Concrete fixtures for counterexamples and witnesses -/

/-- A concrete processor standing in for NeuroKit2 in evaluations. -/
def nk0 : NeuroKit :=
  ⟨fun _ _ => ⟨none, [.num 0], [("Rate", [Cell.num 60])]⟩,
   fun _ _ => ⟨none, [.num 0], [("Tonic", [Cell.num 2])]⟩⟩

/-- A concrete mode map with codes 0 and 1. -/
def modes0 : List (Cell × String) := [(.num 0, "eco"), (.num 1, "sport")]

/-- A two-row recording whose mode code 0 is in `modes0`. -/
def goodDf : DataFrame :=
  ⟨none, [.num 0, .num 1],
   [("scen", [.str "S1", .str "S1"]), ("mode", [.num 0, .num 0]),
    ("sig", [.num 5, .num 6]), ("time", [.num 0, .num 1]),
    ("stress", [.num 0, .num 1])]⟩

/-- A two-row recording whose mode code 9 is absent from `modes0`. -/
def badModeDf : DataFrame :=
  ⟨none, [.num 0, .num 1],
   [("scen", [.str "S2", .str "S2"]), ("mode", [.num 9, .num 9]),
    ("sig", [.num 7, .num 8]), ("time", [.num 0, .num 1]),
    ("stress", [.num 1, .num 1])]⟩

theorem goodDf_recOk : RecOk "sig" "stress" "time" "scen" "mode" modes0 goodDf :=
  ⟨⟨.str "S1", [.str "S1"], rfl⟩, ⟨.num 0, [.num 0], "eco", rfl, rfl⟩,
   ⟨[Cell.num 5, Cell.num 6], rfl⟩, ⟨[Cell.num 0, Cell.num 1], rfl⟩,
   ⟨[Cell.num 0, Cell.num 1], rfl⟩⟩

/-! ### Claims C1, C2 -/

/-- Claim C1, counterexample: with the unsupported signal_type `"FOO"` the
call does not raise before any recording is processed.  On the empty list
it returns normally with no error at all; and when the first recording's
mode code 9 is absent from the mode map, the call raises the `KeyError`
from the mode lookup rather than the invalid-argument `ValueError` — the
recording's columns are read and its mode code looked up before the
`signal_type` check is reached. -/
theorem invalid_signal_type_not_failfast :
    extract_neuro_features nk0 (.inr []) 10 "sig" "stress" "time" "P1" "scen" "mode"
      modes0 "graphs" "FOO" false = .ok [] ∧
    modes0.lookup (.num 9) = none ∧
    extract_neuro_features nk0 (.inr [badModeDf]) 10 "sig" "stress" "time" "P1" "scen" "mode"
      modes0 "graphs" "FOO" false = .error (.keyError (.num 9)) := by
  refine ⟨rfl, rfl, rfl⟩

/-- Claim C1 (amended): when `signal_type` is neither `"ECG"` nor `"EDA"`
and the recording list is non-empty, the `ValueError` is raised on the
first loop iteration — after the first recording's scenario, mode and
signal columns have been read and its mode code looked up in the mode map,
but before any feature table is produced — independently of the remaining
recordings; on the empty list the call returns the empty list instead of
raising. -/
theorem invalid_signal_type_raises_in_first_iteration (nk : NeuroKit) (sr_hz : ℤ)
    (signal_col target_col time_col participant scenario_col mode_col : String)
    (modes : List (Cell × String)) (graph_path signal_type : String) (offline : Bool)
    (df : DataFrame) (rest : List DataFrame)
    (hs : ∃ s ss, df.cols.lookup scenario_col = some (s :: ss))
    (hm : ∃ m ms mn, df.cols.lookup mode_col = some (m :: ms) ∧ modes.lookup m = some mn)
    (hsig : ∃ v, df.cols.lookup signal_col = some v)
    (h1 : signal_type ≠ "ECG") (h2 : signal_type ≠ "EDA") :
    extract_neuro_features nk (.inr (df :: rest)) sr_hz signal_col target_col time_col
      participant scenario_col mode_col modes graph_path signal_type offline
      = .error (.valueError "Invalid value for signal_type. Must be 'ECG' or 'EDA'.") := by
  obtain ⟨s, ss, hs⟩ := hs
  obtain ⟨m, ms, mn, hm, hmn⟩ := hm
  obtain ⟨sv, hsv⟩ := hsig
  simp [extract_neuro_features, extractLoop, processOne, getCol, iloc0, dictGet, nkDispatch,
    hs, hm, hmn, hsv, h1, h2, Bind.bind, Except.bind]

theorem invalid_signal_type_raises_in_first_iteration_witness :
    extract_neuro_features nk0 (.inr [goodDf]) 10 "sig" "stress" "time" "P1" "scen" "mode"
      modes0 "graphs" "FOO" false
      = .error (.valueError "Invalid value for signal_type. Must be 'ECG' or 'EDA'.") :=
  invalid_signal_type_raises_in_first_iteration nk0 10 "sig" "stress" "time" "P1" "scen" "mode"
    modes0 "graphs" "FOO" false goodDf []
    ⟨.str "S1", [.str "S1"], rfl⟩ ⟨.num 0, [.num 0], "eco", rfl, rfl⟩
    ⟨[Cell.num 5, Cell.num 6], rfl⟩ (by decide) (by decide)

/-- Claim C2: on the empty list of recordings, `extract_neuro_features`
returns the empty list without raising, for every value of `signal_type`
(including unsupported ones), every processor and all other arguments: the
`signal_type` validity check sits inside the per-recording loop and is
never reached. -/
theorem empty_input_returns_empty (nk : NeuroKit) (sr_hz : ℤ)
    (signal_col target_col time_col participant scenario_col mode_col : String)
    (modes : List (Cell × String)) (graph_path signal_type : String) (offline : Bool) :
    extract_neuro_features nk (.inr []) sr_hz signal_col target_col time_col participant
      scenario_col mode_col modes graph_path signal_type offline = .ok [] := rfl

/-! ### Claims C5, C8, C9 -/

/-- Claim C5: on a valid call, every returned feature table is the
column-wise concatenation of the four context columns
`time_col, scenario_col, mode_col, target_col` taken from the original
recording (left) with the external processor's output columns, each label
renamed by prepending `signal_type ++ "_"` (right); the context labels and
values are unchanged and every feature column carries the prefix.
(`prefix_columns` is modelled from the spec, its source not being among the
repository files provided.) -/
theorem feature_table_structure (nk : NeuroKit) (sr_hz : ℤ)
    (signal_col target_col time_col participant scenario_col mode_col : String)
    (modes : List (Cell × String)) (graph_path signal_type : String) (offline : Bool)
    (dfs : List DataFrame)
    (hty : signal_type = "ECG" ∨ signal_type = "EDA")
    (hok : ∀ df ∈ dfs, RecOk signal_col target_col time_col scenario_col mode_col modes df) :
    extract_neuro_features nk (.inr dfs) sr_hz signal_col target_col time_col participant
      scenario_col mode_col modes graph_path signal_type offline
      = .ok (dfs.map (featureTable nk sr_hz signal_col target_col time_col scenario_col mode_col signal_type)) ∧
    ∀ df ∈ dfs,
      (featureTable nk sr_hz signal_col target_col time_col scenario_col mode_col signal_type df).cols
        = [(time_col, df.col time_col), (scenario_col, df.col scenario_col),
           (mode_col, df.col mode_col), (target_col, df.col target_col)]
          ++ (nkRun nk signal_type (df.col signal_col) sr_hz).cols.map
              (fun c => (signal_type ++ "_" ++ c.1, c.2)) := by
  refine ⟨?_, ?_⟩
  · simpa [extract_neuro_features] using
      extractLoop_ok nk sr_hz signal_col target_col time_col scenario_col mode_col
        modes signal_type dfs hok hty
  · intro df hdf
    simp [featureTable, concatCols, prefix_columns, String.append_assoc]

theorem feature_table_structure_witness :
    (extract_neuro_features nk0 (.inr [goodDf]) 10 "sig" "stress" "time" "P1" "scen" "mode"
      modes0 "graphs" "ECG" false
      = .ok [featureTable nk0 10 "sig" "stress" "time" "scen" "mode" "ECG" goodDf]) ∧
    (featureTable nk0 10 "sig" "stress" "time" "scen" "mode" "ECG" goodDf).cols
      = [("time", [Cell.num 0, Cell.num 1]), ("scen", [Cell.str "S1", Cell.str "S1"]),
         ("mode", [Cell.num 0, Cell.num 0]), ("stress", [Cell.num 0, Cell.num 1]),
         ("ECG_Rate", [Cell.num 60])] := by
  have h := feature_table_structure nk0 10 "sig" "stress" "time" "P1" "scen" "mode"
    modes0 "graphs" "ECG" false [goodDf] (Or.inl rfl)
    (by intro d hd; rw [List.mem_singleton] at hd; subst hd; exact goodDf_recOk)
  exact ⟨by simpa using h.1, by rw [h.2 goodDf (by simp)]; rfl⟩

/-- Claim C8, counterexample: the second recording's first-row mode code 9
is absent from the mode map, yet the call raises the invalid-argument
`ValueError` (from the first recording's dispatch on the unsupported
signal_type `"FOO"`), not a lookup error from the map access on the
offending recording. -/
theorem mode_lookup_error_preempted :
    modes0.lookup (.num 9) = none ∧
    extract_neuro_features nk0 (.inr [goodDf, badModeDf]) 10 "sig" "stress" "time" "P1"
      "scen" "mode" modes0 "graphs" "FOO" false
      = .error (.valueError "Invalid value for signal_type. Must be 'ECG' or 'EDA'.") := by
  refine ⟨rfl, rfl⟩

/-- Claim C8 (amended): on a call with a supported `signal_type` (`"ECG"`
or `"EDA"`), if every recording before some position processes cleanly and
the recording at that position has a first-row mode code absent from the
mode map (its scenario and mode columns present and non-empty), then the
call raises the uncaught `KeyError` from that map access: no further
recording is processed and no partial result list is returned. -/
theorem absent_mode_code_raises_keyerror (nk : NeuroKit) (sr_hz : ℤ)
    (signal_col target_col time_col participant scenario_col mode_col : String)
    (modes : List (Cell × String)) (graph_path signal_type : String) (offline : Bool)
    (pre : List DataFrame) (df : DataFrame) (rest : List DataFrame) (m : Cell)
    (hty : signal_type = "ECG" ∨ signal_type = "EDA")
    (hpre : ∀ d ∈ pre, RecOk signal_col target_col time_col scenario_col mode_col modes d)
    (hs : ∃ s ss, df.cols.lookup scenario_col = some (s :: ss))
    (hm : ∃ ms, df.cols.lookup mode_col = some (m :: ms))
    (hmn : modes.lookup m = none) :
    extract_neuro_features nk (.inr (pre ++ df :: rest)) sr_hz signal_col target_col time_col
      participant scenario_col mode_col modes graph_path signal_type offline
      = .error (.keyError m) := by
  obtain ⟨s, ss, hs⟩ := hs
  obtain ⟨ms, hm⟩ := hm
  show extractLoop nk sr_hz signal_col target_col time_col scenario_col mode_col modes
    signal_type (pre ++ df :: rest) = .error (.keyError m)
  induction pre with
  | nil =>
    simp [extractLoop, processOne, getCol, iloc0, dictGet, hs, hm, hmn, Bind.bind, Except.bind]
  | cons p ps ih =>
    have hp := processOne_ok nk sr_hz signal_col target_col time_col scenario_col mode_col
      modes signal_type p (hpre p (by simp)) hty
    simp [extractLoop, hp, Bind.bind, Except.bind,
      ih (fun d hd => hpre d (by simp [hd]))]

theorem absent_mode_code_raises_keyerror_witness :
    extract_neuro_features nk0 (.inr [goodDf, badModeDf]) 10 "sig" "stress" "time" "P1"
      "scen" "mode" modes0 "graphs" "ECG" false = .error (.keyError (.num 9)) :=
  absent_mode_code_raises_keyerror nk0 10 "sig" "stress" "time" "P1" "scen" "mode"
    modes0 "graphs" "ECG" false [goodDf] badModeDf [] (.num 9) (Or.inl rfl)
    (by intro d hd; rw [List.mem_singleton] at hd; subst hd; exact goodDf_recOk)
    ⟨.str "S2", [.str "S2"], rfl⟩ ⟨[.num 9], rfl⟩ rfl

/-- Claim C9: on a valid call, `extract_neuro_features` returns exactly one
feature table per input recording, in input order (the result is the map of
the per-recording feature-table construction over the inputs, so it has the
same length); a single non-list recording argument is first normalized to a
one-element list, and the result is then the corresponding one-element
list. -/
theorem one_table_per_recording_in_order (nk : NeuroKit) (sr_hz : ℤ)
    (signal_col target_col time_col participant scenario_col mode_col : String)
    (modes : List (Cell × String)) (graph_path signal_type : String) (offline : Bool)
    (dfs : List DataFrame) (d0 : DataFrame)
    (hty : signal_type = "ECG" ∨ signal_type = "EDA")
    (hok : ∀ df ∈ dfs, RecOk signal_col target_col time_col scenario_col mode_col modes df)
    (hok0 : RecOk signal_col target_col time_col scenario_col mode_col modes d0) :
    (extract_neuro_features nk (.inr dfs) sr_hz signal_col target_col time_col participant
        scenario_col mode_col modes graph_path signal_type offline
      = .ok (dfs.map (featureTable nk sr_hz signal_col target_col time_col scenario_col mode_col signal_type))) ∧
    (dfs.map (featureTable nk sr_hz signal_col target_col time_col scenario_col mode_col signal_type)).length
      = dfs.length ∧
    (extract_neuro_features nk (.inl d0) sr_hz signal_col target_col time_col participant
        scenario_col mode_col modes graph_path signal_type offline
      = extract_neuro_features nk (.inr [d0]) sr_hz signal_col target_col time_col participant
          scenario_col mode_col modes graph_path signal_type offline) ∧
    (extract_neuro_features nk (.inl d0) sr_hz signal_col target_col time_col participant
        scenario_col mode_col modes graph_path signal_type offline
      = .ok [featureTable nk sr_hz signal_col target_col time_col scenario_col mode_col signal_type d0]) := by
  refine ⟨?_, by simp, rfl, ?_⟩
  · simpa [extract_neuro_features] using
      extractLoop_ok nk sr_hz signal_col target_col time_col scenario_col mode_col
        modes signal_type dfs hok hty
  · have h := processOne_ok nk sr_hz signal_col target_col time_col scenario_col mode_col
      modes signal_type d0 hok0 hty
    simp [extract_neuro_features, extractLoop, h, Bind.bind, Except.bind]

theorem one_table_per_recording_in_order_witness :
    ((extract_neuro_features nk0 (.inr [goodDf, goodDf]) 10 "sig" "stress" "time" "P1"
        "scen" "mode" modes0 "graphs" "EDA" false).map List.length = .ok 2) ∧
    (extract_neuro_features nk0 (.inl goodDf) 10 "sig" "stress" "time" "P1"
        "scen" "mode" modes0 "graphs" "EDA" false
      = .ok [featureTable nk0 10 "sig" "stress" "time" "scen" "mode" "EDA" goodDf]) := by
  have h := one_table_per_recording_in_order nk0 10 "sig" "stress" "time" "P1" "scen" "mode"
    modes0 "graphs" "EDA" false [goodDf, goodDf] goodDf (Or.inr rfl)
    (by intro d hd; simp only [List.mem_cons, List.not_mem_nil, or_false] at hd
        rcases hd with rfl | rfl <;> exact goodDf_recOk)
    goodDf_recOk
  exact ⟨by rw [h.1]; rfl, h.2.2.2⟩

/-! ### Claims C6, C7, C10 -/

/-- Helper: when every frame has the timestamp column, `get_sampling_rate`
returns the rate of each frame, in order. -/
theorem get_sampling_rate_ok (dfs : List DataFrame) (time_col : String)
    (h : ∀ df ∈ dfs, time_col ∈ df.columns) :
    get_sampling_rate dfs time_col = .ok (dfs.map (rateOf time_col)) := by
  induction dfs with
  | nil => rfl
  | cons d rest ih =>
    simp [get_sampling_rate, h d (by simp), ih (fun x hx => h x (by simp [hx]))]

/-- Uniformly spaced timestamps `t0, t0 + d, …` (`n` values). -/
def arith (t0 d : ℚ) : ℕ → List ℚ
  | 0 => []
  | n + 1 => t0 :: arith (t0 + d) d n

/-- A recording holding one uniformly spaced timestamp column. -/
def uniformDf (time_col : String) (t0 d : ℚ) (n : ℕ) : DataFrame :=
  ⟨none, [], [(time_col, (arith t0 d n).map Cell.num)]⟩

theorem zipWith_sub_arith (d : ℚ) :
    ∀ (n : ℕ) (t0 : ℚ),
      List.zipWith Cell.sub ((arith (t0 + d) d n).map Cell.num)
        (Cell.num t0 :: (arith (t0 + d) d n).map Cell.num)
      = List.replicate n (Cell.num d) := by
  intro n
  induction n with
  | zero => intro t0; rfl
  | succ k ih =>
    intro t0
    show List.zipWith Cell.sub
        (Cell.num (t0 + d) :: (arith (t0 + d + d) d k).map Cell.num)
        (Cell.num t0 :: Cell.num (t0 + d) :: (arith (t0 + d + d) d k).map Cell.num)
      = List.replicate (k + 1) (Cell.num d)
    rw [List.zipWith_cons_cons, List.replicate_succ, ih (t0 + d)]
    simp [Cell.sub]

theorem filterMap_toQ_replicate (n : ℕ) (q : ℚ) :
    (List.replicate n (Cell.num q)).filterMap Cell.toQ = List.replicate n q := by
  induction n with
  | zero => rfl
  | succ k ih => simp [List.replicate_succ, Cell.toQ, ih]

theorem seriesMean_nan_replicate (n : ℕ) (hn : n ≠ 0) (q : ℚ) :
    seriesMean (Cell.nan :: List.replicate n (Cell.num q)) = Cell.num q := by
  have h1 : (Cell.nan :: List.replicate n (Cell.num q)).filterMap Cell.toQ
      = List.replicate n q := by
    simp [Cell.toQ, filterMap_toQ_replicate]
  rw [seriesMean]
  simp only [h1]
  rw [if_neg (by simp [List.isEmpty_iff, List.replicate_eq_nil_iff, hn])]
  congr 1
  rw [List.sum_replicate, List.length_replicate, nsmul_eq_mul]
  exact mul_div_cancel_left₀ q (Nat.cast_ne_zero.mpr hn)

/-- Claim C6: when every recording contains the timestamp column,
`get_sampling_rate` returns one rate per recording in input order, each
rate being 1 divided by the mean of that recording's consecutive timestamp
differences; in particular, a recording with `n ≥ 2` uniformly spaced
timestamps of spacing `d ≠ 0` gets the rate `1 / d` exactly. -/
theorem sampling_rate_formula_and_uniform :
    (∀ (dfs : List DataFrame) (time_col : String),
      (∀ df ∈ dfs, time_col ∈ df.columns) →
      get_sampling_rate dfs time_col = .ok (dfs.map (rateOf time_col))) ∧
    (∀ (time_col : String) (t0 d : ℚ) (n : ℕ), 2 ≤ n → d ≠ 0 →
      rateOf time_col (uniformDf time_col t0 d n) = .num (1 / d)) := by
  refine ⟨get_sampling_rate_ok, ?_⟩
  intro time_col t0 d n hn hd
  obtain ⟨k, rfl⟩ : ∃ k, n = k + 2 := ⟨n - 2, by omega⟩
  have hcol : (uniformDf time_col t0 d (k + 2)).col time_col
      = (arith t0 d (k + 2)).map Cell.num := by
    simp [uniformDf, DataFrame.col, List.lookup]
  have hdiff : seriesDiff ((arith t0 d (k + 2)).map Cell.num)
      = Cell.nan :: List.replicate (k + 1) (Cell.num d) := by
    show seriesDiff (Cell.num t0 :: (arith (t0 + d) d (k + 1)).map Cell.num) = _
    rw [seriesDiff, zipWith_sub_arith]
  rw [rateOf, hcol, hdiff, seriesMean_nan_replicate (k + 1) (by omega) d]
  simp [Cell.recip, hd]

theorem sampling_rate_formula_and_uniform_witness :
    get_sampling_rate [goodDf] "time" = .ok [rateOf "time" goodDf] ∧
    rateOf "t" (uniformDf "t" 0 (1 / 2) 3) = .num 2 := by
  constructor
  · exact sampling_rate_formula_and_uniform.1 [goodDf] "time"
      (by intro d hd; rw [List.mem_singleton] at hd; subst hd; decide)
  · rw [sampling_rate_formula_and_uniform.2 "t" 0 (1 / 2) 3 (by norm_num) (by norm_num)]
    norm_num

/-- Claim C7: if any recording in the list lacks the timestamp column, the
whole call raises a `ValueError` whose message names the missing column,
and no partial list of rates is returned. -/
theorem sampling_rate_missing_column_aborts (dfs : List DataFrame) (time_col : String)
    (h : ∃ df ∈ dfs, time_col ∉ df.columns) :
    get_sampling_rate dfs time_col
      = .error (.valueError ("Timestamp column '" ++ time_col ++ "' not found in dataframe.")) := by
  induction dfs with
  | nil => simp at h
  | cons d rest ih =>
    obtain ⟨df, hdf, hnot⟩ := h
    rcases List.mem_cons.mp hdf with rfl | hdf2
    · simp [get_sampling_rate, hnot]
    · by_cases hd : time_col ∈ d.columns
      · simp [get_sampling_rate, hd, ih ⟨df, hdf2, hnot⟩]
      · simp [get_sampling_rate, hd]

/-- A recording with no timestamp column. -/
def noTimeDf : DataFrame := ⟨none, [.num 0], [("x", [.num 3])]⟩

theorem sampling_rate_missing_column_aborts_witness :
    get_sampling_rate [goodDf, noTimeDf] "time"
      = .error (.valueError ("Timestamp column 'time' not found in dataframe.")) :=
  sampling_rate_missing_column_aborts [goodDf, noTimeDf] "time"
    ⟨noTimeDf, by simp, by decide⟩

/-- Claim C10: a recording that contains the timestamp column but has
fewer than two rows does not make `get_sampling_rate` raise: the mean of
its consecutive timestamp differences is `NaN`, its rate is `NaN`, and a
call over a list of recordings all containing the column still returns one
rate per recording, the offending recording's entry being `NaN` rather
than an error. -/
theorem short_recording_rate_is_nan (dfs : List DataFrame) (time_col : String)
    (df : DataFrame) (hmem : df ∈ dfs)
    (hall : ∀ d ∈ dfs, time_col ∈ d.columns)
    (hshort : (df.col time_col).length < 2) :
    seriesMean (seriesDiff (df.col time_col)) = Cell.nan ∧
    rateOf time_col df = Cell.nan ∧
    get_sampling_rate dfs time_col = .ok (dfs.map (rateOf time_col)) := by
  have hmean : seriesMean (seriesDiff (df.col time_col)) = Cell.nan := by
    cases hcol : df.col time_col with
    | nil => rfl
    | cons x xs =>
      cases xs with
      | nil => rfl
      | cons y ys => rw [hcol] at hshort; simp at hshort; omega
  refine ⟨hmean, ?_, get_sampling_rate_ok dfs time_col hall⟩
  rw [rateOf, hmean]
  rfl

/-- A one-row recording with a timestamp column. -/
def shortDf : DataFrame := ⟨none, [.num 0], [("time", [.num 7])]⟩

theorem short_recording_rate_is_nan_witness :
    rateOf "time" shortDf = Cell.nan ∧
    get_sampling_rate [shortDf] "time" = .ok [Cell.nan] := by
  have h := short_recording_rate_is_nan [shortDf] "time" shortDf (by simp)
    (by intro d hd; rw [List.mem_singleton] at hd; subst hd; decide) (by decide)
  refine ⟨h.2.1, ?_⟩
  rw [h.2.2]
  simp [h.2.1]

/-! ### Claims C3, C4 -/

/-- Claim C4: `resample_dataframe` mutates its argument.  Whenever the
timestamp column is present, the caller-visible frame after the call is
the input re-indexed by `timestamp_col` in place: its index now carries
that column's name and values and the column has left the column list —
no copy of the input is made before the index change, so this holds
whether the call returns or raises. -/
theorem resample_mutates_input_index (df : DataFrame)
    (timestamp_col value_col group_col participant_col : String) (target_freq : ℚ)
    (v : List Cell) (hv : df.cols.lookup timestamp_col = some v) :
    (resample_dataframe df timestamp_col value_col group_col participant_col target_freq).1
      = ⟨some timestamp_col, v, df.cols.filter (fun c => c.1 ≠ timestamp_col)⟩ := by
  rw [resample_dataframe]
  simp only [set_index, hv]
  cases hagg : pdResampleAgg ⟨some timestamp_col, v, df.cols.filter (fun c => c.1 ≠ timestamp_col)⟩
      target_freq [(participant_col, .first), (group_col, .first), (value_col, .mean)] with
  | error e => simp [hagg]
  | ok r => simp [hagg]

/-- A recording for resampling: timestamp column "t", plus participant,
group, value and one extra column. -/
def resDf : DataFrame :=
  ⟨none, [.num 0, .num 1],
   [("t", [.num 0, .num 1]), ("p", [.str "P1", .str "P1"]),
    ("g", [.num 0, .num 0]), ("v", [.num 10, .num 20]),
    ("extra", [.num 5, .num 5])]⟩

theorem resample_mutates_input_index_witness :
    (resample_dataframe resDf "t" "v" "g" "p" 1).1
      = ⟨some "t", [.num 0, .num 1],
         [("p", [.str "P1", .str "P1"]), ("g", [.num 0, .num 0]),
          ("v", [.num 10, .num 20]), ("extra", [.num 5, .num 5])]⟩ := by
  rw [resample_mutates_input_index resDf "t" "v" "g" "p" 1 [.num 0, .num 1] rfl]
  rfl

/-- Like `resDf`, but with the timestamp column literally named "index". -/
def resIdxDf : DataFrame :=
  ⟨none, [.num 0, .num 1],
   [("index", [.num 0, .num 1]), ("p", [.str "P1", .str "P1"]),
    ("g", [.num 0, .num 0]), ("v", [.num 10, .num 20]),
    ("extra", [.num 5, .num 5])]⟩

/-- Claim C3, counterexample: when the timestamp column is literally named
`"index"`, the source's leftover `rename(columns={'index':
'timestamp_col'})` fires after `reset_index`, so the output does not
contain the timestamp column: the restored timestamp appears under the
literal label `"timestamp_col"` instead of under the input's timestamp
column name. -/
theorem resample_index_name_collision :
    ((resample_dataframe resIdxDf "index" "v" "g" "p" 1).2.map
        (fun o => o.cols.map Prod.fst))
      = .ok ["timestamp_col", "p", "g", "v"] ∧
    "index" ∉ ["timestamp_col", "p", "g", "v"] := by
  refine ⟨rfl, by decide⟩

/-- Helper: looking up a label other than `tc` is unaffected by filtering
out the `tc`-labelled columns. -/
theorem lookup_filter_ne (cols : List (String × List Cell)) (a tc : String) (h : a ≠ tc) :
    (cols.filter (fun c => c.1 ≠ tc)).lookup a = cols.lookup a := by
  induction cols with
  | nil => rfl
  | cons c cs ih =>
    obtain ⟨k, v⟩ := c
    simp only [ne_eq, decide_not] at ih ⊢
    by_cases hk : k = tc
    · subst hk
      simp [List.filter_cons, List.lookup, beq_false_of_ne h, ih]
    · by_cases hak : a = k
      · subst hak
        simp [List.filter_cons, hk, List.lookup]
      · simp [List.filter_cons, hk, List.lookup, beq_false_of_ne hak, ih]

/-- Claim C3 (amended): provided none of the four column names is the
literal string `"index"` (see the counterexample: with a timestamp column
named `"index"` the leftover rename relabels it `"timestamp_col"`), and
the participant, group and value columns are distinct from one another and
from the timestamp column, the output of `resample_dataframe` contains
exactly the timestamp column plus the three columns `participant_col`,
`group_col` and `value_col`, aggregated per target-frequency bin —
`participant_col` and `group_col` take the bin's first value, `value_col`
the bin's mean — and every other column of the input is absent from the
output. -/
theorem resample_output_columns_and_aggregation (df : DataFrame)
    (timestamp_col value_col group_col participant_col : String) (target_freq : ℚ)
    (tv : List Cell)
    (htc : df.cols.lookup timestamp_col = some tv)
    (hp : ∃ w, df.cols.lookup participant_col = some w)
    (hg : ∃ w, df.cols.lookup group_col = some w)
    (hv : ∃ w, df.cols.lookup value_col = some w)
    (hptc : participant_col ≠ timestamp_col) (hgtc : group_col ≠ timestamp_col)
    (hvtc : value_col ≠ timestamp_col)
    (hpg : participant_col ≠ group_col) (hpv : participant_col ≠ value_col)
    (hgv : group_col ≠ value_col)
    (hti : timestamp_col ≠ "index") (hpi : participant_col ≠ "index")
    (hgi : group_col ≠ "index") (hvi : value_col ≠ "index") :
    ∃ out,
      (resample_dataframe df timestamp_col value_col group_col participant_col target_freq).2
        = .ok out ∧
      out.columns = [timestamp_col, participant_col, group_col, value_col] ∧
      out.col timestamp_col
        = (binRange tv target_freq).map (fun k => Cell.num (k * target_freq)) ∧
      out.col participant_col
        = (binRange tv target_freq).map
            (fun k => aggFirst (cellsInBin tv (df.col participant_col) target_freq k)) ∧
      out.col group_col
        = (binRange tv target_freq).map
            (fun k => aggFirst (cellsInBin tv (df.col group_col) target_freq k)) ∧
      out.col value_col
        = (binRange tv target_freq).map
            (fun k => seriesMean (cellsInBin tv (df.col value_col) target_freq k)) ∧
      ∀ c, c ∉ [timestamp_col, participant_col, group_col, value_col] → c ∉ out.columns := by
  obtain ⟨pw, hpw⟩ := hp
  obtain ⟨gw, hgw⟩ := hg
  obtain ⟨vw, hvw⟩ := hv
  have ep : (df.cols.filter (fun c => c.1 ≠ timestamp_col)).lookup participant_col
      = some pw := by rw [lookup_filter_ne df.cols participant_col timestamp_col hptc, hpw]
  have eg : (df.cols.filter (fun c => c.1 ≠ timestamp_col)).lookup group_col
      = some gw := by rw [lookup_filter_ne df.cols group_col timestamp_col hgtc, hgw]
  have ev : (df.cols.filter (fun c => c.1 ≠ timestamp_col)).lookup value_col
      = some vw := by rw [lookup_filter_ne df.cols value_col timestamp_col hvtc, hvw]
  have hagg : pdResampleAgg
      ⟨some timestamp_col, tv, df.cols.filter (fun c => c.1 ≠ timestamp_col)⟩ target_freq
      [(participant_col, .first), (group_col, .first), (value_col, .mean)]
      = .ok ⟨some timestamp_col,
          (binRange tv target_freq).map (fun k => Cell.num (k * target_freq)),
          [(participant_col,
              (binRange tv target_freq).map
                (fun k => aggFirst (cellsInBin tv (df.col participant_col) target_freq k))),
           (group_col,
              (binRange tv target_freq).map
                (fun k => aggFirst (cellsInBin tv (df.col group_col) target_freq k))),
           (value_col,
              (binRange tv target_freq).map
                (fun k => seriesMean (cellsInBin tv (df.col value_col) target_freq k)))]⟩ := by
    rw [pdResampleAgg]
    have hfind : ([(participant_col, AggFun.first), (group_col, AggFun.first),
        (value_col, AggFun.mean)]).find?
          (fun s => !((DataFrame.mk (some timestamp_col) tv
            (df.cols.filter (fun c => c.1 ≠ timestamp_col))).cols.lookup s.1).isSome)
        = none := by
      simp only [ne_eq, decide_not] at ep eg ev
      simp [List.find?, ep, eg, ev]
    simp only [hfind]
    simp only [ne_eq, decide_not] at ep eg ev
    simp [applyAgg, DataFrame.col, ep, eg, ev, hpw, hgw, hvw]
  refine ⟨renameIndexCol (reset_index
      ⟨some timestamp_col,
        (binRange tv target_freq).map (fun k => Cell.num (k * target_freq)),
        [(participant_col,
            (binRange tv target_freq).map
              (fun k => aggFirst (cellsInBin tv (df.col participant_col) target_freq k))),
         (group_col,
            (binRange tv target_freq).map
              (fun k => aggFirst (cellsInBin tv (df.col group_col) target_freq k))),
         (value_col,
            (binRange tv target_freq).map
              (fun k => seriesMean (cellsInBin tv (df.col value_col) target_freq k)))]⟩),
    ?_, ?_, ?_, ?_, ?_, ?_, ?_⟩
  · rw [resample_dataframe]
    simp only [set_index, htc, hagg]
  · simp [renameIndexCol, reset_index, DataFrame.columns, hti, hpi, hgi, hvi]
  · simp [renameIndexCol, reset_index, DataFrame.col, hti, hpi, hgi, hvi, List.lookup]
  · simp only [renameIndexCol, reset_index, DataFrame.col]
    simp [List.lookup, hti, hpi, hgi, hvi, beq_false_of_ne hptc]
  · simp only [renameIndexCol, reset_index, DataFrame.col]
    simp [List.lookup, hti, hpi, hgi, hvi, beq_false_of_ne hgtc,
      beq_false_of_ne (Ne.symm hpg)]
  · simp only [renameIndexCol, reset_index, DataFrame.col]
    simp [List.lookup, hti, hpi, hgi, hvi, beq_false_of_ne hvtc,
      beq_false_of_ne (Ne.symm hpv), beq_false_of_ne (Ne.symm hgv)]
  · intro c hc
    simp only [List.mem_cons, List.not_mem_nil, or_false, not_or] at hc
    simp [renameIndexCol, reset_index, DataFrame.columns, hti, hpi, hgi, hvi, hc]

theorem resample_output_columns_and_aggregation_witness :
    ∃ out, (resample_dataframe resDf "t" "v" "g" "p" 1).2 = .ok out ∧
      out.columns = ["t", "p", "g", "v"] ∧ "extra" ∉ out.columns := by
  obtain ⟨out, h1, h2, h3, h4, h5, h6, h7⟩ :=
    resample_output_columns_and_aggregation resDf "t" "v" "g" "p" 1
      [Cell.num 0, Cell.num 1] rfl ⟨[Cell.str "P1", Cell.str "P1"], rfl⟩
      ⟨[Cell.num 0, Cell.num 0], rfl⟩ ⟨[Cell.num 10, Cell.num 20], rfl⟩
      (by decide) (by decide) (by decide) (by decide) (by decide) (by decide)
      (by decide) (by decide) (by decide) (by decide)
  exact ⟨out, h1, h2, h7 "extra" (by decide)⟩
